import Mathlib

/-
Verification of the procedural glitch effect engine of the 0xDEADC0DE
repository (src/src/graphics/GlitchEffect.cpp and
src/include/deadcode/graphics/GlitchEffect.hpp).

Embedding conventions.
* float32 values are modelled as exact rationals.  Every constant the
  claims depend on (thresholds 0.1, 0.15, 0.2, 0.3, the envelope constants
  0.2, 0.5, 0.8, the noise normalisation by 2 to the 24th) is exactly
  representable in binary float32 or only compared against values whose
  classification agrees in both arithmetics, so the control flow modelled
  here is the control flow of the C++ code.
* uint32 arithmetic in generateNoise is modelled on Nat with explicit
  reduction modulo 2 to the 32nd at each wrap point.
* std::sin and std::cos are uninterpreted: the whole development is
  parameterised over a TrigModel supplying them.  No claim depends on a
  concrete trigonometric value (wherever a concrete state is evaluated the
  trig terms are multiplied by zero or unreached).
* The mutable std::mt19937 with uniform_real_distribution on the unit
  interval is modelled as a stream of rationals (rng : Nat -> Rat) with a
  cursor rngIdx; each draw reads the stream at the cursor and advances it.
  The two draws generateRandomOffset makes inside the const method
  getCharacterState are passed in explicitly as rx and ry.
* C++ float division never traps; dividing by zero yields inf or NaN.  The
  state-machine operations below are therefore total functions (matching
  the final stored state of the C++ code for every duration, including
  non-positive ones, because a glitch whose timer reached the duration is
  closed and its intensity overwritten by 0 before the function returns).
  Where a claim is about the occurrence of a division by zero the checked
  variants divChk and fmodChk, returning none on a zero denominator, record
  it; the division-free agreement lemmas relate the two forms.
-/

namespace Deadcode

/-- Two component vector of rationals, the model of glm::vec2. -/
structure Vec2 where
  x : ℚ
  y : ℚ
deriving DecidableEq, Repr

/-- Three component vector of rationals, the model of glm::vec3. -/
structure Vec3 where
  x : ℚ
  y : ℚ
  z : ℚ
deriving DecidableEq, Repr

/-- Componentwise sum of two 3-vectors, the model of vec3 += vec3. -/
def addV3 (a b : Vec3) : Vec3 := ⟨a.x + b.x, a.y + b.y, a.z + b.z⟩

/-- A 3-vector scaled by a rational, the model of vec3 * scalar. -/
def smulV3 (v : Vec3) (c : ℚ) : Vec3 := ⟨v.x * c, v.y * c, v.z * c⟩

/-- Glitch effect types (enum class GlitchType). -/
inductive GlitchType where
  | jitter
  | slice
  | block
  | duplicate
  | wave
  | chromatic
  | all
deriving DecidableEq, Repr

/-- Glitch effect configuration (struct GlitchConfig) with the default
member values of the header. -/
structure GlitchConfig where
  enabled : Bool := true
  frequency : ℚ := 3
  duration : ℚ := 1/10
  idleTime : ℚ := 2
  characterDisplacement : Bool := true
  maxJitter : ℚ := 3
  verticalJitter : ℚ := 1
  rgbSeparation : Bool := true
  rgbSeparationAmount : ℚ := 2
  glitchColor : Vec3 := ⟨1, 0, 0⟩
  scanlines : Bool := false
  scanlineSpeed : ℚ := 50
  scanlineHeight : ℚ := 2
  intensity : ℚ := 4/5
  randomCorruption : Bool := true
  corruptionChance : ℚ := 1/10
  glitchType : GlitchType := GlitchType.all
  textSlicing : Bool := true
  sliceHeight : ℚ := 3/20
  maxSliceOffset : ℚ := 30
  textDuplication : Bool := true
  duplicationChance : ℚ := 3/20
  blockDisplacement : Bool := true
  blockSize : ℚ := 1/5
  maxBlockOffset : ℚ := 20
  chromaticAberration : Bool := true
  chromaticIntensity : ℚ := 3/2
deriving Repr

/-- Per-character glitch state (struct CharacterGlitchState), fields in
declaration order of the header. -/
structure CharacterGlitchState where
  offset : Vec2
  colorMod : Vec3
  alpha : ℚ
  scale : ℚ
  visible : Bool
  scanlinePhase : ℚ
  duplicate : Bool
  duplicateOffset : Vec2
  sliceOffset : ℚ
  inSliceZone : Bool
deriving DecidableEq, Repr

/-- The value getCharacterState assigns to every field before any effect
runs (the neutral state). -/
def neutralCharState : CharacterGlitchState where
  offset := ⟨0, 0⟩
  colorMod := ⟨1, 1, 1⟩
  alpha := 1
  scale := 1
  visible := true
  scanlinePhase := 0
  duplicate := false
  duplicateOffset := ⟨0, 0⟩
  sliceOffset := 0
  inSliceZone := false

/-- The glitch engine state (class GlitchEffect): configuration plus the
mutable runtime members.  The random engine and its unit-interval
distribution are modelled by the draw stream rng with cursor rngIdx. -/
structure GlitchEffect where
  config : GlitchConfig
  initialized : Bool
  isGlitching : Bool
  glitchTimer : ℚ
  idleTimer : ℚ
  currentIntensity : ℚ
  elapsedTime : ℚ
  rng : Nat → ℚ
  rngIdx : Nat
  noiseSeed : Nat
  screenWidth : ℤ
  screenHeight : ℤ
  resolutionScale : ℚ

/-- Truncation of a rational toward zero, the C float-to-integer cast for
the nonnegative values the code feeds it. -/
def truncToNat (q : ℚ) : Nat := (⌊q⌋).toNat

/-- m_noiseSeed = m_distribution(m_randomEngine) * 10000: a unit draw
scaled to the 0..10000 range and truncated into the unsigned seed. -/
def seedOfDraw (q : ℚ) : Nat := truncToNat (q * 10000)

/-- The constructed engine (both constructors): nothing initialized, all
timers and intensity zero, FullHD screen, resolution scale 1. -/
def mkEngine (config : GlitchConfig) (rng : Nat → ℚ) : GlitchEffect where
  config := config
  initialized := false
  isGlitching := false
  glitchTimer := 0
  idleTimer := 0
  currentIntensity := 0
  elapsedTime := 0
  rng := rng
  rngIdx := 0
  noiseSeed := 0
  screenWidth := 1920
  screenHeight := 1080
  resolutionScale := 1

namespace GlitchEffect

/-- isActive(): whether a glitch episode is running. -/
def isActive (e : GlitchEffect) : Bool := e.isGlitching

/-- GlitchEffect::initialize(): an already initialized engine returns
early; otherwise the noise seed is drawn, the idle timer armed and the
engine marked initialized. -/
def initializeFn (e : GlitchEffect) : GlitchEffect :=
  if e.initialized = true then e
  else
    { e with
      noiseSeed := seedOfDraw (e.rng e.rngIdx)
      rngIdx := e.rngIdx + 1
      idleTimer := e.config.idleTime
      initialized := true }

/-- GlitchEffect::triggerGlitch(): forces the active state, zeroes the
glitch timer and the intensity, and rerolls the noise seed. -/
def triggerGlitchFn (e : GlitchEffect) : GlitchEffect :=
  { e with
    isGlitching := true
    glitchTimer := 0
    currentIntensity := 0
    noiseSeed := seedOfDraw (e.rng e.rngIdx)
    rngIdx := e.rngIdx + 1 }

/-- The intensity envelope computed while a glitch is active: progress is
glitchTimer / duration, a fast ramp below the 20 percent mark (with the
source's divisor 0.5) and a linear fade above it. -/
def intensityEnvelope (glitchTimer duration maxIntensity : ℚ) : ℚ :=
  let progress := glitchTimer / duration
  if progress < 1/5 then progress / (1/2) * maxIntensity
  else maxIntensity * (1 - (progress - 1/5) / (4/5))

/-- The active branch of GlitchEffect::update: the glitch timer advances,
the intensity envelope is evaluated, and when the timer has reached the
duration the glitch is closed (timer and intensity zeroed, idle timer
rearmed, seed rerolled). -/
def updateGlitching (e : GlitchEffect) (deltaTime : ℚ) : GlitchEffect :=
  let gt := e.glitchTimer + deltaTime
  let ci := intensityEnvelope gt e.config.duration e.config.intensity
  if e.config.duration ≤ gt then
    { e with
      isGlitching := false
      glitchTimer := 0
      currentIntensity := 0
      idleTimer := e.config.idleTime
      noiseSeed := seedOfDraw (e.rng e.rngIdx)
      rngIdx := e.rngIdx + 1 }
  else
    { e with glitchTimer := gt, currentIntensity := ci }

/-- The idle branch of GlitchEffect::update: the idle timer decreases and,
once it is nonpositive, triggerGlitch fires. -/
def updateIdle (e : GlitchEffect) (deltaTime : ℚ) : GlitchEffect :=
  let it := e.idleTimer - deltaTime
  if it ≤ 0 then triggerGlitchFn { e with idleTimer := it }
  else { e with idleTimer := it }

/-- GlitchEffect::update(deltaTime): a no-op unless initialized and
enabled; otherwise elapsed time accumulates and the active or the idle
branch runs. -/
def updateFn (e : GlitchEffect) (deltaTime : ℚ) : GlitchEffect :=
  if e.initialized = false ∨ e.config.enabled = false then e
  else
    if e.isGlitching = true then
      updateGlitching { e with elapsedTime := e.elapsedTime + deltaTime } deltaTime
    else
      updateIdle { e with elapsedTime := e.elapsedTime + deltaTime } deltaTime

/-- GlitchEffect::reset(): back to idle with zero timers and intensity,
idle timer rearmed, elapsed time zeroed and the seed rerolled. -/
def resetFn (e : GlitchEffect) : GlitchEffect :=
  { e with
    isGlitching := false
    glitchTimer := 0
    idleTimer := e.config.idleTime
    currentIntensity := 0
    elapsedTime := 0
    noiseSeed := seedOfDraw (e.rng e.rngIdx)
    rngIdx := e.rngIdx + 1 }

/-- GlitchEffect::setScreenSize(width, height): stores the dimensions and
recomputes the resolution scale as the smaller of the two FullHD ratios,
clamped into the 0.3 to 3.0 range. -/
def setScreenSizeFn (e : GlitchEffect) (width height : ℤ) : GlitchEffect :=
  let widthScale : ℚ := (width : ℚ) / 1920
  let heightScale : ℚ := (height : ℚ) / 1080
  let s := min widthScale heightScale
  { e with
    screenWidth := width
    screenHeight := height
    resolutionScale := max (3/10) (min s 3) }

/-- GlitchEffect::generateNoise(charIndex, seed): the integer hash
(multiply-add mixing, xor-shift-multiply avalanche) masked to 24 bits and
normalised by 2 to the 24th.  The const method reads no member of the
engine, which the purity theorem below makes explicit. -/
def generateNoise (_e : GlitchEffect) (charIndex seed : Nat) : ℚ :=
  let n1 : Nat := (charIndex * 374761393 + seed * 668265263) % 2 ^ 32
  let n2 : Nat := ((n1 ^^^ (n1 >>> 13)) * 1274126177) % 2 ^ 32
  (((n2 ^^^ (n2 >>> 16)) &&& 0xFFFFFF : Nat) : ℚ) / 16777216

/-- GlitchEffect::generateRandomOffset(): the two unit draws rx and ry of
the mutable random engine, centred and scaled by the jitter magnitudes and
the resolution scale. -/
def generateRandomOffset (e : GlitchEffect) (rx ry : ℚ) : Vec2 :=
  ⟨(rx - 1/2) * 2 * e.config.maxJitter * e.resolutionScale,
   (ry - 1/2) * 2 * e.config.verticalJitter * e.resolutionScale⟩

end GlitchEffect

/-- The trigonometric oracle: std::sin and std::cos as uninterpreted
rational functions.  Every theorem below holds for an arbitrary model. -/
structure TrigModel where
  sin : ℚ → ℚ
  cos : ℚ → ℚ

/-- A concrete model used only in closed witnesses and counterexamples, in
which every trigonometric term is multiplied by zero or never reached, so
its values are irrelevant. -/
def zeroTrig : TrigModel := ⟨fun _ => 0, fun _ => 0⟩

/-- Checked rational division: none on a zero denominator, mirroring the
occurrence of a float division by zero in the source. -/
def divChk (a b : ℚ) : Option ℚ := if b = 0 then none else some (a / b)

/-- Truncation of a rational toward zero, the rounding of C fmod. -/
def truncQ (q : ℚ) : ℤ := if 0 ≤ q then ⌊q⌋ else -⌊-q⌋

/-- Checked C fmod: x - trunc(x / y) * y, none on a zero divisor. -/
def fmodChk (x y : ℚ) : Option ℚ :=
  if y = 0 then none else some (x - (truncQ (x / y) : ℚ) * y)

namespace GlitchEffect

/-- GlitchEffect::calculateWaveDisplacement(charIndex, characterCount):
zero when the count is zero, otherwise three superposed waves of elapsed
time and the normalised character position, scaled by the jitter
magnitudes and the resolution scale. -/
def calculateWaveDisplacement (e : GlitchEffect) (T : TrigModel)
    (charIndex characterCount : Nat) : Option Vec2 :=
  if characterCount = 0 then some ⟨0, 0⟩
  else
    (divChk (charIndex : ℚ) (characterCount : ℚ)).map fun normalizedPos =>
      let wave1 := T.sin (e.elapsedTime * 10 + normalizedPos * 20)
      let wave2 := T.sin (e.elapsedTime * (73/10) + normalizedPos * 15 + 3/2)
      let wave3 := T.cos (e.elapsedTime * (137/10) - normalizedPos * 10)
      ⟨(wave1 * (1/2) + wave2 * (3/10)) * e.config.maxJitter * e.resolutionScale,
       wave3 * (1/5) * e.config.verticalJitter * e.resolutionScale⟩

/-- GlitchEffect::calculateSliceDisplacement(charIndex, characterCount):
zero and out of zone when the count is zero; otherwise the slice zone
centre is a time-quantised noise value, a character is in zone when its
normalised position is within sliceHeight of the centre, and an in-zone
character gets a signed offset decaying linearly with its distance from
the centre. -/
def calculateSliceDisplacement (e : GlitchEffect)
    (charIndex characterCount : Nat) : Option (ℚ × Bool) :=
  if characterCount = 0 then some (0, false)
  else
    (divChk (charIndex : ℚ) (characterCount : ℚ)).bind fun normalizedPos =>
      let sliceNoise := e.generateNoise (truncToNat (e.elapsedTime * 10)) e.noiseSeed
      let sliceZoneCenter := sliceNoise
      let distanceFromCenter := |normalizedPos - sliceZoneCenter|
      if distanceFromCenter < e.config.sliceHeight then
        (divChk distanceFromCenter e.config.sliceHeight).map fun ratio =>
          let sliceDirection : ℚ :=
            if 1/2 < e.generateNoise (truncToNat (sliceZoneCenter * 1000)) e.noiseSeed
            then 1 else -1
          let sliceIntensity := 1 - ratio
          (sliceDirection * e.config.maxSliceOffset * sliceIntensity * e.resolutionScale,
           true)
      else some (0, false)

/-- GlitchEffect::calculateBlockDisplacement(charIndex, characterCount):
zero when the count is zero; otherwise characters fall into blocks of at
least one character, each block draws two noise values, only blocks whose
first value reaches 0.6 are displaced. -/
def calculateBlockDisplacement (e : GlitchEffect)
    (charIndex characterCount : Nat) : Vec2 :=
  if characterCount = 0 then ⟨0, 0⟩
  else
    let blockSize : Nat := max 1 (truncToNat ((characterCount : ℚ) * e.config.blockSize))
    let blockIndex : Nat := charIndex / blockSize
    let blockNoiseX := e.generateNoise blockIndex (e.noiseSeed + 500)
    let blockNoiseY := e.generateNoise blockIndex (e.noiseSeed + 600)
    if blockNoiseX < 3/5 then ⟨0, 0⟩
    else
      ⟨(blockNoiseX - 1/2) * 2 * e.config.maxBlockOffset * e.resolutionScale,
       (blockNoiseY - 1/2) * 2 * e.config.maxBlockOffset * (1/2) * e.resolutionScale⟩

/-- GlitchEffect::calculateDuplication(charIndex): a character whose noise
value at seed offset 700 exceeds the duplication chance is not duplicated;
otherwise it is, with a raw offset built from the noise values at seed
offsets 800 and 900. -/
def calculateDuplication (e : GlitchEffect) (charIndex : Nat) : Bool × Vec2 :=
  let dupNoise := e.generateNoise charIndex (e.noiseSeed + 700)
  if e.config.duplicationChance < dupNoise then (false, ⟨0, 0⟩)
  else
    (true,
     ⟨(e.generateNoise charIndex (e.noiseSeed + 800) - 1/2) * 10,
      (e.generateNoise charIndex (e.noiseSeed + 900) - 1/2) * 5⟩)

/-- The text slicing block of getCharacterState: gated on the textSlicing
flag and intensity above 0.15; records the scaled slice offset and the
zone flag, and adds the scaled offset to the x offset for in-zone
characters. -/
def sliceStep (e : GlitchEffect) (intensity : ℚ) (charIndex characterCount : Nat)
    (st : CharacterGlitchState) : Option CharacterGlitchState :=
  if e.config.textSlicing = true ∧ 3/20 < intensity then
    (e.calculateSliceDisplacement charIndex characterCount).map fun p =>
      let st1 := { st with sliceOffset := p.1 * intensity, inSliceZone := p.2 }
      if p.2 = true then
        { st1 with offset := ⟨st1.offset.x + p.1 * intensity, st1.offset.y⟩ }
      else st1
  else some st

/-- The block displacement block of getCharacterState: gated on the
blockDisplacement flag and intensity above 0.2; adds the scaled block
offset to the offset. -/
def blockStep (e : GlitchEffect) (intensity : ℚ) (charIndex characterCount : Nat)
    (st : CharacterGlitchState) : CharacterGlitchState :=
  if e.config.blockDisplacement = true ∧ 1/5 < intensity then
    let b := e.calculateBlockDisplacement charIndex characterCount
    { st with offset := ⟨st.offset.x + b.x * intensity, st.offset.y + b.y * intensity⟩ }
  else st

/-- The character displacement block of getCharacterState: gated on the
characterDisplacement flag and intensity above 0.1; overwrites both offset
components with the wave and random mix modulated by intensity and the
per-character noise value. -/
def charDispStep (e : GlitchEffect) (T : TrigModel) (rx ry intensity : ℚ)
    (charIndex characterCount : Nat)
    (st : CharacterGlitchState) : Option CharacterGlitchState :=
  if e.config.characterDisplacement = true ∧ 1/10 < intensity then
    (e.calculateWaveDisplacement T charIndex characterCount).map fun waveOffset =>
      let randomOffset := e.generateRandomOffset rx ry
      let noise := e.generateNoise charIndex e.noiseSeed
      { st with
        offset :=
          ⟨(waveOffset.x * (7/10) + randomOffset.x * (3/10)) * intensity * noise,
           (waveOffset.y * (7/10) + randomOffset.y * (3/10)) * intensity * noise⟩ }
  else some st

/-- The character duplication block of getCharacterState: gated on the
textDuplication flag and intensity above 0.3; a selected character gets
the duplicate flag and the raw duplication offset scaled by intensity and
the resolution scale. -/
def dupStep (e : GlitchEffect) (intensity : ℚ) (charIndex : Nat)
    (st : CharacterGlitchState) : CharacterGlitchState :=
  if e.config.textDuplication = true ∧ 3/10 < intensity then
    let d := e.calculateDuplication charIndex
    if d.1 = true then
      { st with
        duplicate := true
        duplicateOffset :=
          ⟨d.2.x * intensity * e.resolutionScale, d.2.y * intensity * e.resolutionScale⟩ }
    else st
  else st

/-- The chromatic aberration and RGB separation block of
getCharacterState: each gated on its flag and intensity above 0.2, the
chromatic branch taking priority; three phase buckets by charIndex mod 3,
each pushing one channel up and the others down, then the additive glitch
tint. -/
def chromaStep (e : GlitchEffect) (intensity : ℚ) (charIndex : Nat)
    (st : CharacterGlitchState) : CharacterGlitchState :=
  let channelPhase : ℚ := ((charIndex % 3 : Nat) : ℚ) / 3
  if e.config.chromaticAberration = true ∧ 1/5 < intensity then
    let chromatic := e.config.chromaticIntensity
    let cm : Vec3 :=
      if channelPhase < 33/100 then
        ⟨1 + intensity * chromatic * (4/5),
         1 - intensity * chromatic * (1/2),
         1 - intensity * chromatic * (7/10)⟩
      else if channelPhase < 66/100 then
        ⟨1 - intensity * chromatic * (1/2),
         1 + intensity * chromatic * (4/5),
         1 - intensity * chromatic * (1/2)⟩
      else
        ⟨1 - intensity * chromatic * (7/10),
         1 - intensity * chromatic * (1/2),
         1 + intensity * chromatic * (4/5)⟩
    { st with
      colorMod := addV3 cm (smulV3 e.config.glitchColor (intensity * chromatic * (2/5))) }
  else if e.config.rgbSeparation = true ∧ 1/5 < intensity then
    let cm : Vec3 :=
      if channelPhase < 33/100 then
        ⟨1 + intensity * (1/2), 1 - intensity * (3/10), 1 - intensity * (3/10)⟩
      else if channelPhase < 66/100 then
        ⟨1 - intensity * (3/10), 1 + intensity * (1/2), 1 - intensity * (3/10)⟩
      else
        ⟨1 - intensity * (3/10), 1 - intensity * (3/10), 1 + intensity * (1/2)⟩
    { st with colorMod := addV3 cm (smulV3 e.config.glitchColor (intensity * (3/10))) }
  else st

/-- The random corruption block of getCharacterState: gated on the
randomCorruption flag; the character is hidden when its corruption noise
is below the corruption chance scaled by intensity. -/
def corruptionStep (e : GlitchEffect) (intensity : ℚ) (charIndex : Nat)
    (st : CharacterGlitchState) : CharacterGlitchState :=
  if e.config.randomCorruption = true then
    let corruptNoise := e.generateNoise charIndex (e.noiseSeed + 1000)
    if corruptNoise < e.config.corruptionChance * intensity then
      { st with visible := false }
    else st
  else st

/-- The scanline block of getCharacterState: gated on the scanlines flag;
the phase is elapsed time times the scroll speed modulo ten scanline
heights. -/
def scanlineStep (e : GlitchEffect)
    (st : CharacterGlitchState) : Option CharacterGlitchState :=
  if e.config.scanlines = true then
    (fmodChk (e.elapsedTime * e.config.scanlineSpeed)
       (e.config.scanlineHeight * 10)).map fun ph =>
      { st with scanlinePhase := ph }
  else some st

/-- GlitchEffect::getCharacterState(charIndex, characterCount): the
neutral state when the engine is uninitialized, disabled or idle;
otherwise the effect blocks run in source order on the neutral state.  The
two unit draws of the mutable random engine are the parameters rx and ry;
a none result records a division by zero in the source. -/
def getCharacterState (e : GlitchEffect) (T : TrigModel) (rx ry : ℚ)
    (charIndex characterCount : Nat) : Option CharacterGlitchState :=
  if e.initialized = false ∨ e.config.enabled = false ∨ e.isGlitching = false then
    some neutralCharState
  else
    let intensity := e.currentIntensity
    (e.sliceStep intensity charIndex characterCount neutralCharState).bind fun st1 =>
      let st2 := e.blockStep intensity charIndex characterCount st1
      (e.charDispStep T rx ry intensity charIndex characterCount st2).bind fun st3 =>
        let st4 := e.dupStep intensity charIndex st3
        let st5 := e.chromaStep intensity charIndex st4
        let st6 := e.corruptionStep intensity charIndex st5
        e.scanlineStep st6

/-- The per-character offset as claim C2 states it: the sum of the three
independently gated contributions (slice displacement, block displacement,
character jitter), the jitter contribution being the wave and random mix
scaled by intensity and the per-character noise value.  Written from the
claim's words, to be compared with the offset getCharacterState stores. -/
def specOffsetSum (e : GlitchEffect) (T : TrigModel) (rx ry : ℚ)
    (charIndex characterCount : Nat) : Option Vec2 :=
  (e.calculateSliceDisplacement charIndex characterCount).bind fun p =>
    (e.calculateWaveDisplacement T charIndex characterCount).map fun w =>
      let i := e.currentIntensity
      let sliceC : Vec2 :=
        if e.config.textSlicing = true ∧ 3/20 < i ∧ p.2 = true then ⟨p.1 * i, 0⟩
        else ⟨0, 0⟩
      let b := e.calculateBlockDisplacement charIndex characterCount
      let blockC : Vec2 :=
        if e.config.blockDisplacement = true ∧ 1/5 < i then ⟨b.x * i, b.y * i⟩
        else ⟨0, 0⟩
      let r := e.generateRandomOffset rx ry
      let n := e.generateNoise charIndex e.noiseSeed
      let jitterC : Vec2 :=
        if e.config.characterDisplacement = true ∧ 1/10 < i then
          ⟨(w.x * (7/10) + r.x * (3/10)) * i * n, (w.y * (7/10) + r.y * (3/10)) * i * n⟩
        else ⟨0, 0⟩
      ⟨sliceC.x + blockC.x + jitterC.x, sliceC.y + blockC.y + jitterC.y⟩

end GlitchEffect

/-- The intensity envelope with its division checked: none records that
the source divides glitchTimer by a zero duration. -/
def intensityEnvelopeChk (glitchTimer duration maxIntensity : ℚ) : Option ℚ :=
  (divChk glitchTimer duration).map fun progress =>
    if progress < 1/5 then progress / (1/2) * maxIntensity
    else maxIntensity * (1 - (progress - 1/5) / (4/5))

/-- The engine states reachable from a constructed and initialized engine
by update calls with nonnegative time steps, resets and manual triggers
(the operations the claims range over; the configuration is held fixed,
as the spec requires during an update cycle). -/
inductive Reached : GlitchEffect → Prop where
  | init (cfg : GlitchConfig) (rng : Nat → ℚ) :
      Reached (mkEngine cfg rng).initializeFn
  | update (e : GlitchEffect) (dt : ℚ) (he : Reached e) (hdt : 0 ≤ dt) :
      Reached (e.updateFn dt)
  | reset (e : GlitchEffect) (he : Reached e) : Reached e.resetFn
  | trigger (e : GlitchEffect) (he : Reached e) : Reached e.triggerGlitchFn

/-- An all-zero draw stream, used for the concrete engines below (any
stream would do; zero keeps the evaluated noise seeds at zero). -/
def rngZero : Nat → ℚ := fun _ => 0

/-- Default configuration with the effect disabled, for the neutral-state
witness. -/
def cfgOff : GlitchConfig := { enabled := false }

/-- Configuration isolating slicing plus character displacement: full
slice zone, block displacement and the colour, corruption, duplication and
scanline effects off.  Intensity 1 and duration 1 so that an update to
progress 0.6 puts the running intensity at exactly one half. -/
def cfgC2 : GlitchConfig :=
  { idleTime := 0, duration := 1, intensity := 1, sliceHeight := 1,
    blockDisplacement := false, chromaticAberration := false, rgbSeparation := false,
    randomCorruption := false, textDuplication := false }

/-- A reachable glitching state under cfgC2 (the theorem eC2_eq below
identifies it with the update chain: initialize, a zero-time update firing
the idle-to-active transition, then an update of 0.6 seconds): intensity
one half, elapsed time 0.6, noise seed 0. -/
def eC2 : GlitchEffect :=
  { config := cfgC2, initialized := true, isGlitching := true, glitchTimer := 3/5,
    idleTimer := 0, currentIntensity := 1/2, elapsedTime := 3/5, rng := rngZero,
    rngIdx := 2, noiseSeed := 0, screenWidth := 1920, screenHeight := 1080,
    resolutionScale := 1 }

/-- Configuration isolating duplication: every character duplicates
(duplication chance 1) and every other effect is off. -/
def cfgC3 : GlitchConfig :=
  { idleTime := 0, duration := 1, intensity := 1, textSlicing := false,
    characterDisplacement := false, blockDisplacement := false,
    chromaticAberration := false, rgbSeparation := false, randomCorruption := false,
    duplicationChance := 1 }

/-- A reachable glitching state under cfgC3 (same recipe as eC2; the
theorem eC3_eq below identifies it with the update chain). -/
def eC3 : GlitchEffect :=
  { config := cfgC3, initialized := true, isGlitching := true, glitchTimer := 3/5,
    idleTimer := 0, currentIntensity := 1/2, elapsedTime := 3/5, rng := rngZero,
    rngIdx := 2, noiseSeed := 0, screenWidth := 1920, screenHeight := 1080,
    resolutionScale := 1 }

/-- eC3 after setScreenSize(3840, 2160) (the theorem eC3b_eq below): the
identical runtime state with resolution scale 2 instead of 1. -/
def eC3b : GlitchEffect :=
  { config := cfgC3, initialized := true, isGlitching := true, glitchTimer := 3/5,
    idleTimer := 0, currentIntensity := 1/2, elapsedTime := 3/5, rng := rngZero,
    rngIdx := 2, noiseSeed := 0, screenWidth := 3840, screenHeight := 2160,
    resolutionScale := 2 }

/-- Default configuration with a zero glitch duration, the case claim C4
says the envelope division is guarded against. -/
def cfgC4 : GlitchConfig := { duration := 0 }

/-- A reachable state under cfgC4 that is initialized, enabled and
glitching: the very next update evaluates the intensity envelope with the
zero duration as divisor. -/
def eC4 : GlitchEffect := ((mkEngine cfgC4 rngZero).initializeFn).triggerGlitchFn

/-- Configuration isolating chromatic aberration: every displacement,
corruption and duplication effect off, the chromatic branch on with its
default strength. -/
def cfgC7 : GlitchConfig :=
  { idleTime := 0, duration := 1, intensity := 1, textSlicing := false,
    characterDisplacement := false, blockDisplacement := false, textDuplication := false,
    randomCorruption := false, rgbSeparation := false }

/-- A reachable glitching state under cfgC7 (same recipe as eC2; the
theorem eC7_eq below identifies it with the update chain). -/
def eC7 : GlitchEffect :=
  { config := cfgC7, initialized := true, isGlitching := true, glitchTimer := 3/5,
    idleTimer := 0, currentIntensity := 1/2, elapsedTime := 3/5, rng := rngZero,
    rngIdx := 2, noiseSeed := 0, screenWidth := 1920, screenHeight := 1080,
    resolutionScale := 1 }

/-- The default engine immediately after initialize, the idle state on
which the biconditional of claim C8 fails. -/
def eC8 : GlitchEffect := (mkEngine {} rngZero).initializeFn

/-- The configuration of the activation-cycle scenario of claim C9. -/
def cfg9 : GlitchConfig := { idleTime := 2, duration := 1/2, intensity := 1 }

/-- The scenario engine of claim C9 after initialize and update(2.0). -/
def eC9a (rng : Nat → ℚ) : GlitchEffect := ((mkEngine cfg9 rng).initializeFn).updateFn 2

/-- The scenario engine of claim C9 after the further update(0.5). -/
def eC9b (rng : Nat → ℚ) : GlitchEffect := (eC9a rng).updateFn (1/2)

/-- The state eC2 yields for character 0 of 10: the slice displacement is
recorded in sliceOffset but the final offset is the overwritten jitter
value, zero because the character noise at index 0 and seed 0 is zero. -/
def stC2 : CharacterGlitchState :=
  { offset := ⟨0, 0⟩, colorMod := ⟨1, 1, 1⟩, alpha := 1, scale := 1, visible := true,
    scanlinePhase := 0, duplicate := false, duplicateOffset := ⟨0, 0⟩,
    sliceOffset := -56700555/4194304, inSliceZone := true }

/-- The intermediate state of eC2 after its slicing block, before the
character displacement block overwrites the offset. -/
def stC2a : CharacterGlitchState :=
  { offset := ⟨-56700555/4194304, 0⟩, colorMod := ⟨1, 1, 1⟩, alpha := 1, scale := 1,
    visible := true, scanlinePhase := 0, duplicate := false, duplicateOffset := ⟨0, 0⟩,
    sliceOffset := -56700555/4194304, inSliceZone := true }

/-- The state eC3 yields for character 0 of 10: a duplicate with the raw
duplication offset scaled by intensity one half and resolution scale 1. -/
def stC3 : CharacterGlitchState :=
  { offset := ⟨0, 0⟩, colorMod := ⟨1, 1, 1⟩, alpha := 1, scale := 1, visible := true,
    scanlinePhase := 0, duplicate := true,
    duplicateOffset := ⟨3272555/2097152, -33601025/33554432⟩,
    sliceOffset := 0, inSliceZone := false }

/-- The state eC3b yields for character 0 of 10: the same raw duplication
offset scaled by intensity one half and resolution scale 2. -/
def stC3b : CharacterGlitchState :=
  { offset := ⟨0, 0⟩, colorMod := ⟨1, 1, 1⟩, alpha := 1, scale := 1, visible := true,
    scanlinePhase := 0, duplicate := true,
    duplicateOffset := ⟨3272555/1048576, -33601025/16777216⟩,
    sliceOffset := 0, inSliceZone := false }

/-- The state eC7 yields for character 0 with characterCount 0: the
chromatic block modulates the colour even though every count-dependent
contribution is zero. -/
def stC7 : CharacterGlitchState :=
  { offset := ⟨0, 0⟩, colorMod := ⟨19/10, 5/8, 19/40⟩, alpha := 1, scale := 1,
    visible := true, scanlinePhase := 0, duplicate := false, duplicateOffset := ⟨0, 0⟩,
    sliceOffset := 0, inSliceZone := false }

/-! Theorems. -/

/-- The checked envelope agrees with the total one whenever the duration
is nonzero: the checked form only adds the record of a division by zero. -/
theorem intensityEnvelopeChk_agrees (gt d m : ℚ) (hd : d ≠ 0) :
    intensityEnvelopeChk gt d m = some (GlitchEffect.intensityEnvelope gt d m) := by
  rw [intensityEnvelopeChk, divChk, if_neg hd, Option.map_some']
  rfl

/-- Masking to 24 bits is reduction modulo 2 to the 24th (lets the
arithmetic evaluator compute the noise hash). -/
theorem land_mask24 (n : Nat) : n &&& 16777215 = n % 16777216 :=
  Nat.and_pow_two_sub_one_eq_mod n 24

set_option maxRecDepth 4000 in
/-- Evaluation rule for the truncating cast on a nonnegative rational:
pinched between n and n + 1 it returns n. -/
theorem truncToNat_eq (q : ℚ) (n : Nat) (h1 : (n : ℚ) ≤ q) (h2 : q < n + 1) :
    truncToNat q = n := by
  rw [truncToNat]
  have hf : ⌊q⌋ = (n : ℤ) := by
    rw [Int.floor_eq_iff]
    constructor
    · exact_mod_cast h1
    · push_cast
      exact h2
  rw [hf]
  exact Int.toNat_natCast n

/-- eC2 is the state of the engine after initialize, update(0) and
update(0.6) under cfgC2, hence reachable. -/
theorem eC2_eq : (((mkEngine cfgC2 rngZero).initializeFn).updateFn 0).updateFn (3/5) = eC2 := by
  norm_num [mkEngine, GlitchEffect.initializeFn, GlitchEffect.updateFn,
    GlitchEffect.updateIdle, GlitchEffect.updateGlitching, GlitchEffect.triggerGlitchFn,
    GlitchEffect.intensityEnvelope, seedOfDraw, truncToNat, rngZero, cfgC2, eC2,
    Int.toNat_ofNat]

set_option maxRecDepth 4000 in
/-- eC3 is the state of the engine after initialize, update(0) and
update(0.6) under cfgC3, hence reachable. -/
theorem eC3_eq : (((mkEngine cfgC3 rngZero).initializeFn).updateFn 0).updateFn (3/5) = eC3 := by
  norm_num [mkEngine, GlitchEffect.initializeFn, GlitchEffect.updateFn,
    GlitchEffect.updateIdle, GlitchEffect.updateGlitching, GlitchEffect.triggerGlitchFn,
    GlitchEffect.intensityEnvelope, seedOfDraw, truncToNat, rngZero, cfgC3, eC3,
    Int.toNat_ofNat]

/-- eC3b is eC3 after setScreenSize(3840, 2160): only the screen fields
and the resolution scale (now 2) change. -/
theorem eC3b_eq : eC3.setScreenSizeFn 3840 2160 = eC3b := by
  norm_num [GlitchEffect.setScreenSizeFn, eC3, eC3b]

set_option maxRecDepth 4000 in
/-- eC7 is the state of the engine after initialize, update(0) and
update(0.6) under cfgC7, hence reachable. -/
theorem eC7_eq : (((mkEngine cfgC7 rngZero).initializeFn).updateFn 0).updateFn (3/5) = eC7 := by
  norm_num [mkEngine, GlitchEffect.initializeFn, GlitchEffect.updateFn,
    GlitchEffect.updateIdle, GlitchEffect.updateGlitching, GlitchEffect.triggerGlitchFn,
    GlitchEffect.intensityEnvelope, seedOfDraw, truncToNat, rngZero, cfgC7, eC7,
    Int.toNat_ofNat]

/-- On an initialized, enabled, glitching engine getCharacterState is the
source-ordered composition of the seven effect blocks on the neutral
state. -/
theorem getCharacterState_active (e : GlitchEffect) (T : TrigModel) (rx ry : ℚ)
    (charIndex characterCount : Nat)
    (hinit : e.initialized = true) (hen : e.config.enabled = true)
    (hg : e.isGlitching = true) :
    e.getCharacterState T rx ry charIndex characterCount =
      (e.sliceStep e.currentIntensity charIndex characterCount neutralCharState).bind
        fun st1 =>
          (e.charDispStep T rx ry e.currentIntensity charIndex characterCount
              (e.blockStep e.currentIntensity charIndex characterCount st1)).bind
            fun st3 =>
              e.scanlineStep (e.corruptionStep e.currentIntensity charIndex
                (e.chromaStep e.currentIntensity charIndex
                  (e.dupStep e.currentIntensity charIndex st3))) := by
  rw [GlitchEffect.getCharacterState, if_neg]
  simp [hinit, hen, hg]

/-- The slicing block is the identity when text slicing is off. -/
theorem sliceStep_skip (e : GlitchEffect) (i : ℚ) (ci cc : Nat)
    (st : CharacterGlitchState) (h : e.config.textSlicing = false) :
    e.sliceStep i ci cc st = some st := by
  simp [GlitchEffect.sliceStep, h]

/-- The block displacement block is the identity when it is off. -/
theorem blockStep_skip (e : GlitchEffect) (i : ℚ) (ci cc : Nat)
    (st : CharacterGlitchState) (h : e.config.blockDisplacement = false) :
    e.blockStep i ci cc st = st := by
  simp [GlitchEffect.blockStep, h]

/-- The character displacement block is the identity when it is off. -/
theorem charDispStep_skip (e : GlitchEffect) (T : TrigModel) (rx ry i : ℚ)
    (ci cc : Nat) (st : CharacterGlitchState)
    (h : e.config.characterDisplacement = false) :
    e.charDispStep T rx ry i ci cc st = some st := by
  simp [GlitchEffect.charDispStep, h]

/-- The duplication block is the identity when it is off. -/
theorem dupStep_skip (e : GlitchEffect) (i : ℚ) (ci : Nat)
    (st : CharacterGlitchState) (h : e.config.textDuplication = false) :
    e.dupStep i ci st = st := by
  simp [GlitchEffect.dupStep, h]

/-- The colour block is the identity when both of its modes are off. -/
theorem chromaStep_skip (e : GlitchEffect) (i : ℚ) (ci : Nat)
    (st : CharacterGlitchState) (h1 : e.config.chromaticAberration = false)
    (h2 : e.config.rgbSeparation = false) :
    e.chromaStep i ci st = st := by
  simp [GlitchEffect.chromaStep, h1, h2]

/-- The corruption block is the identity when it is off. -/
theorem corruptionStep_skip (e : GlitchEffect) (i : ℚ) (ci : Nat)
    (st : CharacterGlitchState) (h : e.config.randomCorruption = false) :
    e.corruptionStep i ci st = st := by
  simp [GlitchEffect.corruptionStep, h]

/-- The scanline block is the identity when scanlines are off. -/
theorem scanlineStep_skip (e : GlitchEffect) (st : CharacterGlitchState)
    (h : e.config.scanlines = false) :
    e.scanlineStep st = some st := by
  simp [GlitchEffect.scanlineStep, h]

/-- The slicing block never writes alpha or scale. -/
theorem sliceStep_alpha_scale (e : GlitchEffect) (i : ℚ) (ci cc : Nat)
    (st st1 : CharacterGlitchState) (h : e.sliceStep i ci cc st = some st1) :
    st1.alpha = st.alpha ∧ st1.scale = st.scale := by
  rw [GlitchEffect.sliceStep] at h
  split_ifs at h
  · cases hq : e.calculateSliceDisplacement ci cc with
    | none => rw [hq] at h; simp at h
    | some p =>
        rw [hq, Option.map_some'] at h
        injection h with h
        subst h
        split_ifs <;> exact ⟨rfl, rfl⟩
  · injection h with h
    subst h
    exact ⟨rfl, rfl⟩

/-- The block displacement block never writes alpha or scale. -/
theorem blockStep_alpha_scale (e : GlitchEffect) (i : ℚ) (ci cc : Nat)
    (st : CharacterGlitchState) :
    (e.blockStep i ci cc st).alpha = st.alpha ∧ (e.blockStep i ci cc st).scale = st.scale := by
  simp only [GlitchEffect.blockStep]
  split_ifs <;> exact ⟨rfl, rfl⟩

/-- The character displacement block never writes alpha or scale. -/
theorem charDispStep_alpha_scale (e : GlitchEffect) (T : TrigModel) (rx ry i : ℚ)
    (ci cc : Nat) (st st1 : CharacterGlitchState)
    (h : e.charDispStep T rx ry i ci cc st = some st1) :
    st1.alpha = st.alpha ∧ st1.scale = st.scale := by
  rw [GlitchEffect.charDispStep] at h
  split_ifs at h
  · cases hq : e.calculateWaveDisplacement T ci cc with
    | none => rw [hq] at h; simp at h
    | some w =>
        rw [hq, Option.map_some'] at h
        injection h with h
        subst h
        exact ⟨rfl, rfl⟩
  · injection h with h
    subst h
    exact ⟨rfl, rfl⟩

/-- The duplication block writes only the duplicate flag and offset. -/
theorem dupStep_pres (e : GlitchEffect) (i : ℚ) (ci : Nat)
    (st : CharacterGlitchState) :
    (e.dupStep i ci st).offset = st.offset ∧
    (e.dupStep i ci st).alpha = st.alpha ∧ (e.dupStep i ci st).scale = st.scale := by
  simp only [GlitchEffect.dupStep]
  split_ifs <;> exact ⟨rfl, rfl, rfl⟩

/-- The colour block writes only colorMod. -/
theorem chromaStep_pres (e : GlitchEffect) (i : ℚ) (ci : Nat)
    (st : CharacterGlitchState) :
    (e.chromaStep i ci st).offset = st.offset ∧
    (e.chromaStep i ci st).alpha = st.alpha ∧
    (e.chromaStep i ci st).scale = st.scale ∧
    (e.chromaStep i ci st).duplicate = st.duplicate ∧
    (e.chromaStep i ci st).duplicateOffset = st.duplicateOffset := by
  simp only [GlitchEffect.chromaStep]
  split_ifs <;> exact ⟨rfl, rfl, rfl, rfl, rfl⟩

/-- The corruption block writes only the visible flag. -/
theorem corruptionStep_pres (e : GlitchEffect) (i : ℚ) (ci : Nat)
    (st : CharacterGlitchState) :
    (e.corruptionStep i ci st).offset = st.offset ∧
    (e.corruptionStep i ci st).alpha = st.alpha ∧
    (e.corruptionStep i ci st).scale = st.scale ∧
    (e.corruptionStep i ci st).duplicate = st.duplicate ∧
    (e.corruptionStep i ci st).duplicateOffset = st.duplicateOffset := by
  simp only [GlitchEffect.corruptionStep]
  split_ifs <;> exact ⟨rfl, rfl, rfl, rfl, rfl⟩

/-- The scanline block writes only the scanline phase. -/
theorem scanlineStep_pres (e : GlitchEffect) (st st1 : CharacterGlitchState)
    (h : e.scanlineStep st = some st1) :
    st1.offset = st.offset ∧ st1.alpha = st.alpha ∧ st1.scale = st.scale ∧
    st1.duplicate = st.duplicate ∧ st1.duplicateOffset = st.duplicateOffset := by
  rw [GlitchEffect.scanlineStep] at h
  split_ifs at h
  · cases hq : fmodChk (e.elapsedTime * e.config.scanlineSpeed)
        (e.config.scanlineHeight * 10) with
    | none => rw [hq] at h; simp at h
    | some ph =>
        rw [hq, Option.map_some'] at h
        injection h with h
        subst h
        exact ⟨rfl, rfl, rfl, rfl, rfl⟩
  · injection h with h
    subst h
    exact ⟨rfl, rfl, rfl, rfl, rfl⟩

/-- The duplication block on a selected character: the duplicate flag is
set and the raw offset is stored scaled by intensity and the resolution
scale. -/
theorem dupStep_act (e : GlitchEffect) (i : ℚ) (ci : Nat)
    (st : CharacterGlitchState) (d : Vec2)
    (hf : e.config.textDuplication = true) (hi : 3/10 < i)
    (hd : e.calculateDuplication ci = (true, d)) :
    e.dupStep i ci st =
      { st with duplicate := true,
                duplicateOffset := ⟨d.x * i * e.resolutionScale,
                                    d.y * i * e.resolutionScale⟩ } := by
  rw [GlitchEffect.dupStep, if_pos ⟨hf, hi⟩, hd]
  rfl

/-- The four blocks after character displacement (duplication, colour,
corruption, scanlines) never change the offset. -/
theorem tail_offset (e : GlitchEffect) (i : ℚ) (ci : Nat)
    (stX st : CharacterGlitchState)
    (h : e.scanlineStep (e.corruptionStep i ci
        (e.chromaStep i ci (e.dupStep i ci stX))) = some st) :
    st.offset = stX.offset := by
  obtain ⟨p1, -, -, -, -⟩ := scanlineStep_pres _ _ _ h
  rw [p1, (corruptionStep_pres e i ci _).1, (chromaStep_pres e i ci _).1,
    (dupStep_pres e i ci _).1]

/-- The four blocks after character displacement never change the
duplicate flag and offset once the duplication block has run. -/
theorem tail_duplicate (e : GlitchEffect) (i : ℚ) (ci : Nat)
    (stX st : CharacterGlitchState)
    (h : e.scanlineStep (e.corruptionStep i ci
        (e.chromaStep i ci stX)) = some st) :
    st.duplicate = stX.duplicate ∧ st.duplicateOffset = stX.duplicateOffset := by
  obtain ⟨-, -, -, p4, p5⟩ := scanlineStep_pres _ _ _ h
  refine ⟨?_, ?_⟩
  · rw [p4, (corruptionStep_pres e i ci _).2.2.2.1, (chromaStep_pres e i ci _).2.2.2.1]
  · rw [p5, (corruptionStep_pres e i ci _).2.2.2.2, (chromaStep_pres e i ci _).2.2.2.2]

/-- C5: for all index and seed inputs the noise function is a pure
function of its two arguments, independent of the engine state (two calls
on any two engine states agree), and its value lies in the half-open unit
interval. -/
theorem C5_noise_pure_and_in_unit (e1 e2 : GlitchEffect) (charIndex seed : Nat) :
    e1.generateNoise charIndex seed = e2.generateNoise charIndex seed ∧
    0 ≤ e1.generateNoise charIndex seed ∧ e1.generateNoise charIndex seed < 1 := by
  refine ⟨rfl, ?_, ?_⟩
  · rw [GlitchEffect.generateNoise]
    positivity
  · rw [GlitchEffect.generateNoise]
    rw [div_lt_one (by norm_num)]
    have h : ∀ n : Nat, (n &&& 0xFFFFFF) < 16777216 :=
      fun n => Nat.lt_succ_of_le (Nat.and_le_right)
    exact_mod_cast Nat.cast_lt.mpr (h _)

/-- C6: whenever the engine is uninitialized, disabled or idle,
getCharacterState returns the neutral state: zero offsets, identity colour
modulation, alpha and scale one, visible, no duplicate, no slice. -/
theorem C6_neutral_when_inactive (e : GlitchEffect) (T : TrigModel) (rx ry : ℚ)
    (charIndex characterCount : Nat)
    (h : e.initialized = false ∨ e.config.enabled = false ∨ e.isGlitching = false) :
    e.getCharacterState T rx ry charIndex characterCount =
      some { offset := ⟨0, 0⟩, colorMod := ⟨1, 1, 1⟩, alpha := 1, scale := 1,
             visible := true, scanlinePhase := 0, duplicate := false,
             duplicateOffset := ⟨0, 0⟩, sliceOffset := 0, inSliceZone := false } := by
  rw [GlitchEffect.getCharacterState, if_pos h]
  rfl

/-- C6 witness: a constructed engine with the enabled flag off returns the
neutral state for character 4 of 9. -/
theorem C6_neutral_witness :
    ((mkEngine cfgOff rngZero).config.enabled = false) ∧
    (mkEngine cfgOff rngZero).getCharacterState zeroTrig (1/3) (2/3) 4 9 =
      some { offset := ⟨0, 0⟩, colorMod := ⟨1, 1, 1⟩, alpha := 1, scale := 1,
             visible := true, scanlinePhase := 0, duplicate := false,
             duplicateOffset := ⟨0, 0⟩, sliceOffset := 0, inSliceZone := false } :=
  ⟨rfl, C6_neutral_when_inactive _ _ _ _ _ _ (Or.inr (Or.inl rfl))⟩

/-- C4: the intensity envelope division is NOT guarded against a
nonpositive duration.  The state eC4 is reachable (initialize then
triggerGlitch under a configuration with duration zero), is initialized,
enabled and glitching, and the very next update(0.1) evaluates the
envelope at divisor duration = 0: the checked division records the
division by zero (and the update still closes the glitch, so the
transient inf or NaN float value is overwritten by zero). -/
theorem C4_envelope_divides_by_zero :
    Reached eC4 ∧ eC4.initialized = true ∧ eC4.config.enabled = true ∧
    eC4.isGlitching = true ∧ eC4.config.duration = 0 ∧
    intensityEnvelopeChk (eC4.glitchTimer + 1/10) eC4.config.duration
      eC4.config.intensity = none ∧
    (eC4.updateFn (1/10)).isGlitching = false ∧
    (eC4.updateFn (1/10)).currentIntensity = 0 := by
  refine ⟨Reached.trigger _ (Reached.init _ _), rfl, rfl, rfl, rfl, ?_, ?_, ?_⟩ <;>
    norm_num [intensityEnvelopeChk, divChk, GlitchEffect.updateFn,
      GlitchEffect.updateGlitching, GlitchEffect.intensityEnvelope, eC4, cfgC4, mkEngine,
      GlitchEffect.initializeFn, GlitchEffect.triggerGlitchFn, seedOfDraw, truncToNat,
      rngZero, Int.toNat_ofNat]

/-- C8 counterexample: the biconditional fails already on the default
engine immediately after initialize, a reachable idle state whose glitch
timer 0 lies inside the interval from 0 to the duration 0.1 while
isGlitching is false. -/
theorem C8_counterexample :
    Reached eC8 ∧
    ¬(eC8.isGlitching = true ↔ 0 ≤ eC8.glitchTimer ∧ eC8.glitchTimer < eC8.config.duration) :=
  ⟨Reached.init _ _,
   by norm_num [eC8, mkEngine, GlitchEffect.initializeFn, seedOfDraw, truncToNat, rngZero]⟩

/-- The noise value at index 6, seed 0 (the eC2 slice zone centre). -/
theorem noise_6_0 (e : GlitchEffect) : e.generateNoise 6 0 = 414267/4194304 := by
  simp [GlitchEffect.generateNoise, land_mask24]
  norm_num

/-- The noise value at index 98, seed 0 (the eC2 slice direction draw). -/
theorem noise_98_0 (e : GlitchEffect) : e.generateNoise 98 0 = 8052869/16777216 := by
  simp [GlitchEffect.generateNoise, land_mask24]

/-- The noise value at index 0, seed 0 is zero (the hash of zero input). -/
theorem noise_0_0 (e : GlitchEffect) : e.generateNoise 0 0 = 0 := by
  simp [GlitchEffect.generateNoise, land_mask24]

/-- The noise value at index 0, seed 700 (the eC3 duplication draw). -/
theorem noise_0_700 (e : GlitchEffect) : e.generateNoise 0 700 = 751045/8388608 := by
  simp [GlitchEffect.generateNoise, land_mask24]
  norm_num

/-- The noise value at index 0, seed 800 (the eC3 duplicate x draw). -/
theorem noise_0_800 (e : GlitchEffect) : e.generateNoise 0 800 = 1703087/2097152 := by
  simp [GlitchEffect.generateNoise, land_mask24]
  norm_num

/-- The noise value at index 0, seed 900 (the eC3 duplicate y draw). -/
theorem noise_0_900 (e : GlitchEffect) : e.generateNoise 0 900 = 1668403/16777216 := by
  simp [GlitchEffect.generateNoise, land_mask24]

/-- The slice displacement of eC2 for character 0 of 10: the whole text is
one slice zone (slice height 1), the zone centre is the noise value at
time index 6 and the direction noise at index 98 is below one half, so the
offset is negative. -/
theorem eC2_slice :
    eC2.calculateSliceDisplacement 0 10 = some (-56700555/2097152, true) := by
  have ht1 : truncToNat ((3:ℚ)/5 * 10) = 6 := truncToNat_eq _ 6 (by norm_num) (by norm_num)
  have ht1a : truncToNat (6 : ℚ) = 6 := truncToNat_eq _ 6 (by norm_num) (by norm_num)
  have ht2 : truncToNat ((414267/4194304 : ℚ) * 1000) = 98 :=
    truncToNat_eq _ 98 (by norm_num) (by norm_num)
  have ht2a : truncToNat (51783375/524288 : ℚ) = 98 :=
    truncToNat_eq _ 98 (by norm_num) (by norm_num)
  rw [GlitchEffect.calculateSliceDisplacement]
  norm_num [divChk, eC2, cfgC2, ht1, ht1a, ht2, ht2a, noise_6_0, noise_98_0,
    abs_of_nonneg]

/-- The wave displacement of eC2 for character 0 of 10 under the zero
trigonometric model. -/
theorem eC2_wave :
    eC2.calculateWaveDisplacement zeroTrig 0 10 = some ⟨0, 0⟩ := by
  norm_num [GlitchEffect.calculateWaveDisplacement, divChk, eC2, cfgC2, zeroTrig]

/-- The state eC2 returns for character 0 of 10: the slice offset is
recorded, but the character displacement block then overwrites the offset
with its jitter value, zero here because the noise at index 0 and seed 0
is zero. -/
theorem eC2_gcs : eC2.getCharacterState zeroTrig 0 0 0 10 = some stC2 := by
  rw [getCharacterState_active eC2 zeroTrig 0 0 0 10 rfl rfl rfl]
  rw [show eC2.currentIntensity = 1/2 from rfl]
  have h1 : eC2.sliceStep (1/2) 0 10 neutralCharState = some stC2a := by
    rw [GlitchEffect.sliceStep, if_pos (by norm_num [eC2, cfgC2]), eC2_slice]
    norm_num [neutralCharState, stC2a]
  rw [h1, Option.some_bind, blockStep_skip _ _ _ _ _ rfl]
  have h3 : eC2.charDispStep zeroTrig 0 0 (1/2) 0 10 stC2a = some stC2 := by
    rw [GlitchEffect.charDispStep, if_pos (by norm_num [eC2, cfgC2]), eC2_wave]
    norm_num [GlitchEffect.generateRandomOffset, noise_0_0, eC2, cfgC2, stC2a, stC2]
  rw [h3, Option.some_bind, dupStep_skip _ _ _ _ rfl, chromaStep_skip _ _ _ _ rfl rfl,
    corruptionStep_skip _ _ _ _ rfl, scanlineStep_skip _ _ rfl]

/-- The offset claim C2 describes for eC2 and character 0 of 10: the slice
zone contributes, block displacement is off and the jitter term is zero,
so the claimed sum is the nonzero slice contribution. -/
theorem eC2_spec :
    eC2.specOffsetSum zeroTrig 0 0 0 10 = some ⟨-56700555/4194304, 0⟩ := by
  rw [GlitchEffect.specOffsetSum, eC2_slice, Option.some_bind, eC2_wave, Option.map_some']
  norm_num [eC2, cfgC2, GlitchEffect.generateRandomOffset, noise_0_0]

/-- C2 counterexample: on the reachable glitching state eC2 (intensity one
half) the offset getCharacterState stores for character 0 of 10 is not the
sum of the gated contributions the claim describes: the slice zone
contributes -56700555/4194304 to the sum, but the character displacement
block overwrites the offset with its own (here zero) jitter value instead
of adding to it. -/
theorem C2_counterexample :
    Reached eC2 ∧
    (eC2.getCharacterState zeroTrig 0 0 0 10).map CharacterGlitchState.offset ≠
      eC2.specOffsetSum zeroTrig 0 0 0 10 :=
  ⟨eC2_eq ▸ Reached.update _ _ (Reached.update _ _ (Reached.init _ _) le_rfl)
      (by norm_num),
   by rw [eC2_gcs, eC2_spec]; norm_num [stC2, Vec2.mk.injEq]⟩

/-- The duplication decision of eC3 (and eC3b) for character 0: the noise
value at seed offset 700 is below the duplication chance 1, so the
character duplicates with the raw offset built from the noise values at
seed offsets 800 and 900. -/
theorem eC3_dup :
    eC3.calculateDuplication 0 = (true, ⟨3272555/1048576, -33601025/16777216⟩) := by
  rw [GlitchEffect.calculateDuplication]
  norm_num [eC3, cfgC3, noise_0_700, noise_0_800, noise_0_900]

/-- The state eC3 returns for character 0 of 10: only the duplication
block acts, and the stored duplicateOffset is the raw offset scaled by
intensity one half and resolution scale 1. -/
theorem eC3_gcs : eC3.getCharacterState zeroTrig 0 0 0 10 = some stC3 := by
  rw [getCharacterState_active eC3 zeroTrig 0 0 0 10 rfl rfl rfl]
  rw [show eC3.currentIntensity = 1/2 from rfl]
  rw [sliceStep_skip _ _ _ _ _ rfl, Option.some_bind, blockStep_skip _ _ _ _ _ rfl,
    charDispStep_skip _ _ _ _ _ _ _ _ rfl, Option.some_bind]
  have h4 : eC3.dupStep (1/2) 0 neutralCharState = stC3 := by
    rw [GlitchEffect.dupStep, if_pos (by norm_num [eC3, cfgC3]), eC3_dup]
    norm_num [eC3, neutralCharState, stC3]
  rw [h4, chromaStep_skip _ _ _ _ rfl rfl, corruptionStep_skip _ _ _ _ rfl,
    scanlineStep_skip _ _ rfl]

/-- The duplication decision is unchanged by the screen size change. -/
theorem eC3b_dup :
    eC3b.calculateDuplication 0 = (true, ⟨3272555/1048576, -33601025/16777216⟩) := by
  rw [GlitchEffect.calculateDuplication]
  norm_num [eC3b, cfgC3, noise_0_700, noise_0_800, noise_0_900]

/-- The state eC3b returns for character 0 of 10: the same raw duplication
offset, now scaled by resolution scale 2. -/
theorem eC3b_gcs : eC3b.getCharacterState zeroTrig 0 0 0 10 = some stC3b := by
  rw [getCharacterState_active eC3b zeroTrig 0 0 0 10 rfl rfl rfl]
  rw [show eC3b.currentIntensity = 1/2 from rfl]
  rw [sliceStep_skip _ _ _ _ _ rfl, Option.some_bind, blockStep_skip _ _ _ _ _ rfl,
    charDispStep_skip _ _ _ _ _ _ _ _ rfl, Option.some_bind]
  have h4 : eC3b.dupStep (1/2) 0 neutralCharState = stC3b := by
    rw [GlitchEffect.dupStep, if_pos (by norm_num [eC3b, cfgC3]), eC3b_dup]
    norm_num [eC3b, neutralCharState, stC3b]
  rw [h4, chromaStep_skip _ _ _ _ rfl rfl, corruptionStep_skip _ _ _ _ rfl,
    scanlineStep_skip _ _ rfl]

/-- C3 counterexample: eC3b differs from the reachable glitching state eC3
only in its screen fields and resolution scale (2 instead of 1), yet the
duplicateOffset getCharacterState returns for character 0 of 10 differs,
because the source multiplies the raw duplication offset by intensity and
by the resolution scale. -/
theorem C3_counterexample :
    Reached eC3 ∧ eC3.setScreenSizeFn 3840 2160 = eC3b ∧
    eC3b.isGlitching = eC3.isGlitching ∧
    eC3b.currentIntensity = eC3.currentIntensity ∧
    eC3b.noiseSeed = eC3.noiseSeed ∧
    eC3b.resolutionScale ≠ eC3.resolutionScale ∧
    (eC3b.getCharacterState zeroTrig 0 0 0 10).map CharacterGlitchState.duplicateOffset ≠
      (eC3.getCharacterState zeroTrig 0 0 0 10).map CharacterGlitchState.duplicateOffset :=
  ⟨eC3_eq ▸ Reached.update _ _ (Reached.update _ _ (Reached.init _ _) le_rfl)
      (by norm_num),
   eC3b_eq, rfl, rfl, rfl, by norm_num [eC3, eC3b],
   by rw [eC3_gcs, eC3b_gcs]; norm_num [stC3, stC3b, Vec2.mk.injEq]⟩

/-- The state eC7 returns for character 0 with characterCount 0: all the
count-guarded blocks are skipped or zero, but the chromatic block still
modulates the colour. -/
theorem eC7_gcs : eC7.getCharacterState zeroTrig 0 0 0 0 = some stC7 := by
  rw [getCharacterState_active eC7 zeroTrig 0 0 0 0 rfl rfl rfl]
  rw [show eC7.currentIntensity = 1/2 from rfl]
  rw [sliceStep_skip _ _ _ _ _ rfl, Option.some_bind, blockStep_skip _ _ _ _ _ rfl,
    charDispStep_skip _ _ _ _ _ _ _ _ rfl, Option.some_bind, dupStep_skip _ _ _ _ rfl]
  have h5 : eC7.chromaStep (1/2) 0 neutralCharState = stC7 := by
    norm_num [GlitchEffect.chromaStep, eC7, cfgC7, addV3, smulV3, neutralCharState, stC7]
  rw [h5, corruptionStep_skip _ _ _ _ rfl, scanlineStep_skip _ _ rfl]

/-- C7 counterexample: on the reachable glitching state eC7 the state
returned for character 0 with characterCount 0 is well formed but NOT
neutral: the chromatic aberration block still modulates the colour. -/
theorem C7_counterexample :
    Reached eC7 ∧
    (eC7.getCharacterState zeroTrig 0 0 0 0).map CharacterGlitchState.colorMod ≠
      some ⟨1, 1, 1⟩ :=
  ⟨eC7_eq ▸ Reached.update _ _ (Reached.update _ _ (Reached.init _ _) le_rfl)
      (by norm_num),
   by rw [eC7_gcs]; norm_num [stC7, Vec3.mk.injEq]⟩

/-- C2 as amended: on a glitching engine the offset is NOT a sum of all
three gated contributions; when the character displacement gate fires its
jitter value (the 0.7 wave / 0.3 random mix scaled by intensity and the
per-character noise) OVERWRITES the offset, and only otherwise is the
offset the sum of the gated slice and block contributions. -/
theorem C2_offset_overwrite (e : GlitchEffect) (T : TrigModel) (rx ry : ℚ)
    (charIndex characterCount : Nat) (w : Vec2) (p : ℚ × Bool)
    (st : CharacterGlitchState)
    (hinit : e.initialized = true) (hen : e.config.enabled = true)
    (hg : e.isGlitching = true)
    (hw : e.calculateWaveDisplacement T charIndex characterCount = some w)
    (hp : e.calculateSliceDisplacement charIndex characterCount = some p)
    (hst : e.getCharacterState T rx ry charIndex characterCount = some st) :
    st.offset =
      if e.config.characterDisplacement = true ∧ 1/10 < e.currentIntensity then
        ⟨(w.x * (7/10) + (e.generateRandomOffset rx ry).x * (3/10)) * e.currentIntensity *
            e.generateNoise charIndex e.noiseSeed,
         (w.y * (7/10) + (e.generateRandomOffset rx ry).y * (3/10)) * e.currentIntensity *
            e.generateNoise charIndex e.noiseSeed⟩
      else
        ⟨(if e.config.textSlicing = true ∧ 3/20 < e.currentIntensity ∧ p.2 = true then
            p.1 * e.currentIntensity else 0) +
          (if e.config.blockDisplacement = true ∧ 1/5 < e.currentIntensity then
            (e.calculateBlockDisplacement charIndex characterCount).x * e.currentIntensity
          else 0),
         (if e.config.blockDisplacement = true ∧ 1/5 < e.currentIntensity then
            (e.calculateBlockDisplacement charIndex characterCount).y * e.currentIntensity
          else 0)⟩ := by
  rw [getCharacterState_active e T rx ry charIndex characterCount hinit hen hg] at hst
  by_cases hg3 : e.config.characterDisplacement = true ∧ 1/10 < e.currentIntensity
  · -- jitter overwrite: the slice and block results are irrelevant
    rw [if_pos hg3]
    cases h1 : e.sliceStep e.currentIntensity charIndex characterCount neutralCharState with
    | none => rw [h1] at hst; simp at hst
    | some st1 =>
        rw [h1, Option.some_bind, GlitchEffect.charDispStep, if_pos hg3, hw,
          Option.map_some', Option.some_bind] at hst
        rw [tail_offset _ _ _ _ _ hst]
  · -- no jitter: the offset is the slice contribution plus the block one
    rw [if_neg hg3]
    by_cases hg1 : e.config.textSlicing = true ∧ 3/20 < e.currentIntensity
    · rw [GlitchEffect.sliceStep, if_pos hg1, hp, Option.map_some', Option.some_bind,
        GlitchEffect.charDispStep, if_neg hg3, Option.some_bind] at hst
      have hoff := tail_offset _ _ _ _ _ hst
      by_cases hz : p.2 = true
      · simp only [hz, if_true, eq_self_iff_true, if_pos] at hoff
        rw [if_pos ⟨hg1.1, hg1.2, hz⟩]
        by_cases hg2 : e.config.blockDisplacement = true ∧ 1/5 < e.currentIntensity
        · simp only [GlitchEffect.blockStep, if_pos hg2] at hoff
          rw [hoff]
          simp only [if_pos hg2]
          simp [neutralCharState]
        · simp only [GlitchEffect.blockStep, if_neg hg2] at hoff
          rw [hoff]
          simp only [if_neg hg2]
          simp [neutralCharState]
      · simp only [hz, if_false, Bool.false_eq_true] at hoff
        rw [if_neg (by rintro ⟨-, -, h⟩; exact hz h)]
        by_cases hg2 : e.config.blockDisplacement = true ∧ 1/5 < e.currentIntensity
        · simp only [GlitchEffect.blockStep, if_pos hg2] at hoff
          rw [hoff]
          simp only [if_pos hg2]
          simp [neutralCharState]
        · simp only [GlitchEffect.blockStep, if_neg hg2] at hoff
          rw [hoff]
          simp only [if_neg hg2]
          simp [neutralCharState]
    · rw [GlitchEffect.sliceStep, if_neg hg1, Option.some_bind,
        GlitchEffect.charDispStep, if_neg hg3, Option.some_bind] at hst
      have hoff := tail_offset _ _ _ _ _ hst
      rw [if_neg (by rintro ⟨h1, h2, -⟩; exact hg1 ⟨h1, h2⟩)]
      by_cases hg2 : e.config.blockDisplacement = true ∧ 1/5 < e.currentIntensity
      · simp only [GlitchEffect.blockStep, if_pos hg2] at hoff
        rw [hoff]
        simp only [if_pos hg2]
        simp [neutralCharState]
      · simp only [GlitchEffect.blockStep, if_neg hg2] at hoff
        rw [hoff]
        simp only [if_neg hg2]
        simp [neutralCharState]

/-- C2 witness: the amended statement evaluated on eC2 at character 0 of
10, with the wave value of the zero trigonometric model, the computed
slice pair and the computed output state. -/
theorem C2_offset_overwrite_witness :
    eC2.initialized = true ∧ eC2.config.enabled = true ∧ eC2.isGlitching = true ∧
    eC2.calculateWaveDisplacement zeroTrig 0 10 = some ⟨0, 0⟩ ∧
    eC2.calculateSliceDisplacement 0 10 = some (-56700555/2097152, true) ∧
    eC2.getCharacterState zeroTrig 0 0 0 10 = some stC2 ∧
    stC2.offset =
      (if eC2.config.characterDisplacement = true ∧ 1/10 < eC2.currentIntensity then
        ⟨((⟨0, 0⟩ : Vec2).x * (7/10) + (eC2.generateRandomOffset 0 0).x * (3/10)) *
            eC2.currentIntensity * eC2.generateNoise 0 eC2.noiseSeed,
         ((⟨0, 0⟩ : Vec2).y * (7/10) + (eC2.generateRandomOffset 0 0).y * (3/10)) *
            eC2.currentIntensity * eC2.generateNoise 0 eC2.noiseSeed⟩
      else
        ⟨(if eC2.config.textSlicing = true ∧ 3/20 < eC2.currentIntensity ∧
              (((-56700555/2097152 : ℚ), true)).2 = true then
            (((-56700555/2097152 : ℚ), true)).1 * eC2.currentIntensity else 0) +
          (if eC2.config.blockDisplacement = true ∧ 1/5 < eC2.currentIntensity then
            (eC2.calculateBlockDisplacement 0 10).x * eC2.currentIntensity
          else 0),
         (if eC2.config.blockDisplacement = true ∧ 1/5 < eC2.currentIntensity then
            (eC2.calculateBlockDisplacement 0 10).y * eC2.currentIntensity
          else 0)⟩) :=
  ⟨rfl, rfl, rfl, eC2_wave, eC2_slice, eC2_gcs,
   C2_offset_overwrite eC2 zeroTrig 0 0 0 10 ⟨0, 0⟩ ((-56700555/2097152 : ℚ), true) stC2
     rfl rfl rfl eC2_wave eC2_slice eC2_gcs⟩

/-- C3 as amended: on a glitching engine a duplicated character's stored
duplicateOffset is the raw two-noise-call offset multiplied by the current
intensity AND the resolution scale (the raw calculateDuplication result
itself does not depend on the resolution scale). -/
theorem C3_duplicate_scaled (e : GlitchEffect) (T : TrigModel) (rx ry : ℚ)
    (charIndex characterCount : Nat) (d : Vec2) (s : ℚ) (st : CharacterGlitchState)
    (hinit : e.initialized = true) (hen : e.config.enabled = true)
    (hg : e.isGlitching = true)
    (htd : e.config.textDuplication = true) (hi : 3/10 < e.currentIntensity)
    (hd : e.calculateDuplication charIndex = (true, d))
    (hst : e.getCharacterState T rx ry charIndex characterCount = some st) :
    st.duplicate = true ∧
    st.duplicateOffset = ⟨d.x * e.currentIntensity * e.resolutionScale,
                          d.y * e.currentIntensity * e.resolutionScale⟩ ∧
    ({ e with resolutionScale := s } : GlitchEffect).calculateDuplication charIndex =
      e.calculateDuplication charIndex := by
  rw [getCharacterState_active e T rx ry charIndex characterCount hinit hen hg] at hst
  cases h1 : e.sliceStep e.currentIntensity charIndex characterCount neutralCharState with
  | none => rw [h1] at hst; simp at hst
  | some st1 =>
      rw [h1, Option.some_bind] at hst
      cases h3 : e.charDispStep T rx ry e.currentIntensity charIndex characterCount
          (e.blockStep e.currentIntensity charIndex characterCount st1) with
      | none => rw [h3] at hst; simp at hst
      | some st3 =>
          rw [h3, Option.some_bind,
            dupStep_act e e.currentIntensity charIndex st3 d htd hi hd] at hst
          obtain ⟨q1, q2⟩ := tail_duplicate _ _ _ _ _ hst
          exact ⟨q1, q2, rfl⟩

/-- C3 witness: the amended statement evaluated on eC3 at character 0 of
10, with the computed raw duplication offset, the computed output state
and the alternative resolution scale 2. -/
theorem C3_duplicate_scaled_witness :
    eC3.initialized = true ∧ eC3.config.enabled = true ∧ eC3.isGlitching = true ∧
    eC3.config.textDuplication = true ∧ (3/10 : ℚ) < eC3.currentIntensity ∧
    eC3.calculateDuplication 0 = (true, ⟨3272555/1048576, -33601025/16777216⟩) ∧
    eC3.getCharacterState zeroTrig 0 0 0 10 = some stC3 ∧
    (stC3.duplicate = true ∧
     stC3.duplicateOffset =
       ⟨(⟨3272555/1048576, -33601025/16777216⟩ : Vec2).x * eC3.currentIntensity *
          eC3.resolutionScale,
        (⟨3272555/1048576, -33601025/16777216⟩ : Vec2).y * eC3.currentIntensity *
          eC3.resolutionScale⟩ ∧
     ({ eC3 with resolutionScale := 2 } : GlitchEffect).calculateDuplication 0 =
       eC3.calculateDuplication 0) :=
  ⟨rfl, rfl, rfl, rfl, by norm_num [eC3], eC3_dup, eC3_gcs,
   C3_duplicate_scaled eC3 zeroTrig 0 0 0 10 ⟨3272555/1048576, -33601025/16777216⟩ 2 stC3
     rfl rfl rfl rfl (by norm_num [eC3]) eC3_dup eC3_gcs⟩

/-- The wave displacement never divides by zero: the characterCount
division is guarded by the zero-count early return. -/
theorem wave_isSome (e : GlitchEffect) (T : TrigModel) (ci cc : Nat) :
    (e.calculateWaveDisplacement T ci cc).isSome = true := by
  rw [GlitchEffect.calculateWaveDisplacement]
  split_ifs with h
  · rfl
  · rw [divChk, if_neg (Nat.cast_ne_zero.mpr h)]
    rfl

/-- The slice displacement never divides by zero: the characterCount
division is guarded by the zero-count early return, and the slice height
division only runs for in-zone characters, forcing a positive height. -/
theorem slice_isSome (e : GlitchEffect) (ci cc : Nat) :
    (e.calculateSliceDisplacement ci cc).isSome = true := by
  simp only [GlitchEffect.calculateSliceDisplacement]
  by_cases h : cc = 0
  · rw [if_pos h]
    rfl
  · rw [if_neg h, divChk, if_neg (Nat.cast_ne_zero.mpr h), Option.some_bind]
    by_cases h2 : |(ci : ℚ) / (cc : ℚ) -
        e.generateNoise (truncToNat (e.elapsedTime * 10)) e.noiseSeed| <
        e.config.sliceHeight
    · rw [if_pos h2, Option.isSome_map', divChk,
        if_neg (((abs_nonneg _).trans_lt h2).ne.symm)]
      rfl
    · rw [if_neg h2]
      rfl

/-- The slicing block never divides by zero. -/
theorem sliceStep_isSome (e : GlitchEffect) (i : ℚ) (ci cc : Nat)
    (st : CharacterGlitchState) : (e.sliceStep i ci cc st).isSome = true := by
  rw [GlitchEffect.sliceStep]
  split_ifs
  · rw [Option.isSome_map']
    exact slice_isSome e ci cc
  · rfl

/-- The character displacement block never divides by zero. -/
theorem charDispStep_isSome (e : GlitchEffect) (T : TrigModel) (rx ry i : ℚ)
    (ci cc : Nat) (st : CharacterGlitchState) :
    (e.charDispStep T rx ry i ci cc st).isSome = true := by
  rw [GlitchEffect.charDispStep]
  split_ifs
  · rw [Option.isSome_map']
    exact wave_isSome e T ci cc
  · rfl

/-- The scanline block divides by zero only when scanlines are enabled
with a zero scanline height. -/
theorem scanlineStep_isSome (e : GlitchEffect) (st : CharacterGlitchState)
    (hsc : e.config.scanlines = false ∨ e.config.scanlineHeight ≠ 0) :
    (e.scanlineStep st).isSome = true := by
  rw [GlitchEffect.scanlineStep]
  split_ifs with h
  · rcases hsc with hs | hs
    · rw [hs] at h
      cases h
    · rw [fmodChk, if_neg]
      · rfl
      · intro h0
        rcases mul_eq_zero.mp h0 with h1 | h1
        · exact hs h1
        · norm_num at h1
  · rfl

/-- getCharacterState never divides by zero (for any characterCount, zero
included), provided scanlines are off or the scanline height is nonzero:
every count-dependent division is guarded in the source. -/
theorem getCharacterState_isSome (e : GlitchEffect) (T : TrigModel) (rx ry : ℚ)
    (ci cc : Nat)
    (hsc : e.config.scanlines = false ∨ e.config.scanlineHeight ≠ 0) :
    (e.getCharacterState T rx ry ci cc).isSome = true := by
  simp only [GlitchEffect.getCharacterState]
  split_ifs
  · rfl
  · obtain ⟨st1, h1⟩ :=
      Option.isSome_iff_exists.mp (sliceStep_isSome e e.currentIntensity ci cc
        neutralCharState)
    rw [h1, Option.some_bind]
    obtain ⟨st3, h3⟩ :=
      Option.isSome_iff_exists.mp (charDispStep_isSome e T rx ry e.currentIntensity ci cc
        (e.blockStep e.currentIntensity ci cc st1))
    rw [h3, Option.some_bind]
    exact scanlineStep_isSome e _ hsc

/-- C7 as amended: getCharacterState(i, 0) performs no division by zero
(the count-dependent helpers are guarded and return zero contributions),
but the returned state need not be neutral when the engine is glitching:
colour modulation, corruption and duplication still apply. -/
theorem C7_zero_count_no_div (e : GlitchEffect) (T : TrigModel) (rx ry : ℚ)
    (charIndex : Nat)
    (hsc : e.config.scanlines = false ∨ e.config.scanlineHeight ≠ 0) :
    (e.getCharacterState T rx ry charIndex 0).isSome = true ∧
    e.calculateWaveDisplacement T charIndex 0 = some ⟨0, 0⟩ ∧
    e.calculateSliceDisplacement charIndex 0 = some (0, false) ∧
    e.calculateBlockDisplacement charIndex 0 = ⟨0, 0⟩ :=
  ⟨getCharacterState_isSome e T rx ry charIndex 0 hsc, rfl, rfl, rfl⟩

/-- C7 witness: the amended statement evaluated on the glitching engine
eC7 at character 0 with characterCount 0. -/
theorem C7_zero_count_no_div_witness :
    (eC7.config.scanlines = false ∨ eC7.config.scanlineHeight ≠ 0) ∧
    ((eC7.getCharacterState zeroTrig 0 0 0 0).isSome = true ∧
     eC7.calculateWaveDisplacement zeroTrig 0 0 = some ⟨0, 0⟩ ∧
     eC7.calculateSliceDisplacement 0 0 = some (0, false) ∧
     eC7.calculateBlockDisplacement 0 0 = ⟨0, 0⟩) :=
  ⟨Or.inl rfl, C7_zero_count_no_div eC7 zeroTrig 0 0 0 (Or.inl rfl)⟩

/-- C10: the alpha and scale fields of every state getCharacterState
returns are exactly 1: no effect block ever writes them, even though the
output type exposes them as an alpha override and a scale multiplier. -/
theorem C10_alpha_scale_one (e : GlitchEffect) (T : TrigModel) (rx ry : ℚ)
    (charIndex characterCount : Nat) (st : CharacterGlitchState)
    (h : e.getCharacterState T rx ry charIndex characterCount = some st) :
    st.alpha = 1 ∧ st.scale = 1 := by
  simp only [GlitchEffect.getCharacterState] at h
  split_ifs at h
  · injection h with h
    subst h
    exact ⟨rfl, rfl⟩
  · cases h1 : e.sliceStep e.currentIntensity charIndex characterCount
        neutralCharState with
    | none => rw [h1] at h; simp at h
    | some st1 =>
        rw [h1, Option.some_bind] at h
        cases h3 : e.charDispStep T rx ry e.currentIntensity charIndex characterCount
            (e.blockStep e.currentIntensity charIndex characterCount st1) with
        | none => rw [h3] at h; simp at h
        | some st3 =>
            rw [h3, Option.some_bind] at h
            obtain ⟨s1, s2⟩ := sliceStep_alpha_scale _ _ _ _ _ _ h1
            obtain ⟨b1, b2⟩ :=
              blockStep_alpha_scale e e.currentIntensity charIndex characterCount st1
            obtain ⟨c1, c2⟩ := charDispStep_alpha_scale _ _ _ _ _ _ _ _ _ h3
            obtain ⟨-, d1, d2⟩ := dupStep_pres e e.currentIntensity charIndex st3
            obtain ⟨-, k1, k2, -, -⟩ := chromaStep_pres e e.currentIntensity charIndex
              (e.dupStep e.currentIntensity charIndex st3)
            obtain ⟨-, r1, r2, -, -⟩ := corruptionStep_pres e e.currentIntensity charIndex
              (e.chromaStep e.currentIntensity charIndex
                (e.dupStep e.currentIntensity charIndex st3))
            obtain ⟨-, p1, p2, -, -⟩ := scanlineStep_pres _ _ _ h
            constructor
            · rw [p1, r1, k1, d1, c1, b1, s1]
              rfl
            · rw [p2, r2, k2, d2, c2, b2, s2]
              rfl

/-- C10 witness: the constructed (not yet initialized) default engine
returns the neutral state, whose alpha and scale are 1. -/
theorem C10_alpha_scale_one_witness :
    (mkEngine {} rngZero).getCharacterState zeroTrig 0 0 0 5 = some neutralCharState ∧
    neutralCharState.alpha = 1 ∧ neutralCharState.scale = 1 :=
  ⟨rfl, C10_alpha_scale_one (mkEngine {} rngZero) zeroTrig 0 0 0 5 neutralCharState rfl⟩

/-- update never changes the configuration. -/
theorem updateFn_config (e : GlitchEffect) (dt : ℚ) : (e.updateFn dt).config = e.config := by
  rw [GlitchEffect.updateFn]
  split_ifs <;>
    simp only [GlitchEffect.updateGlitching, GlitchEffect.updateIdle,
      GlitchEffect.triggerGlitchFn] <;>
    split_ifs <;> rfl

/-- The active branch of update when the advanced timer has reached the
duration: the glitch closes. -/
theorem updateGlitching_end (e : GlitchEffect) (dt : ℚ)
    (h : e.config.duration ≤ e.glitchTimer + dt) :
    e.updateGlitching dt =
      { e with isGlitching := false, glitchTimer := 0, currentIntensity := 0,
               idleTimer := e.config.idleTime,
               noiseSeed := seedOfDraw (e.rng e.rngIdx),
               rngIdx := e.rngIdx + 1 } := by
  simp only [GlitchEffect.updateGlitching]
  rw [if_pos h]

/-- The active branch of update when the glitch continues: the timer
advances and the envelope is stored. -/
theorem updateGlitching_cont (e : GlitchEffect) (dt : ℚ)
    (h : ¬ e.config.duration ≤ e.glitchTimer + dt) :
    e.updateGlitching dt =
      { e with glitchTimer := e.glitchTimer + dt,
               currentIntensity := GlitchEffect.intensityEnvelope (e.glitchTimer + dt)
                 e.config.duration e.config.intensity } := by
  simp only [GlitchEffect.updateGlitching]
  rw [if_neg h]

/-- The idle branch of update when the decremented idle timer is
nonpositive: the glitch triggers. -/
theorem updateIdle_trigger (e : GlitchEffect) (dt : ℚ) (h : e.idleTimer - dt ≤ 0) :
    e.updateIdle dt =
      GlitchEffect.triggerGlitchFn { e with idleTimer := e.idleTimer - dt } := by
  simp only [GlitchEffect.updateIdle]
  rw [if_pos h]

/-- The idle branch of update when the idle timer is still positive. -/
theorem updateIdle_wait (e : GlitchEffect) (dt : ℚ) (h : ¬ e.idleTimer - dt ≤ 0) :
    e.updateIdle dt = { e with idleTimer := e.idleTimer - dt } := by
  simp only [GlitchEffect.updateIdle]
  rw [if_neg h]

/-- Every reachable state carries a nonnegative glitch timer, and the
timer is zero whenever the engine is idle. -/
theorem reached_timer (e : GlitchEffect) (h : Reached e) :
    0 ≤ e.glitchTimer ∧ (e.isGlitching = false → e.glitchTimer = 0) := by
  induction h with
  | init cfg rng => exact ⟨le_rfl, fun _ => rfl⟩
  | update e dt he hdt ih =>
      by_cases hI : e.initialized = false ∨ e.config.enabled = false
      · rw [GlitchEffect.updateFn, if_pos hI]
        exact ih
      · rw [GlitchEffect.updateFn, if_neg hI]
        by_cases hG : e.isGlitching = true
        · rw [if_pos hG]
          by_cases h3 : e.config.duration ≤ e.glitchTimer + dt
          · rw [updateGlitching_end { e with elapsedTime := e.elapsedTime + dt } dt h3]
            exact ⟨le_rfl, fun _ => rfl⟩
          · rw [updateGlitching_cont { e with elapsedTime := e.elapsedTime + dt } dt h3]
            exact ⟨add_nonneg ih.1 hdt,
              fun hf => absurd (hG.symm.trans (hf : e.isGlitching = false)) (by simp)⟩
        · rw [if_neg hG]
          by_cases h4 : e.idleTimer - dt ≤ 0
          · rw [updateIdle_trigger { e with elapsedTime := e.elapsedTime + dt } dt h4]
            exact ⟨le_rfl, fun hf => by
              simp [GlitchEffect.triggerGlitchFn] at hf⟩
          · rw [updateIdle_wait { e with elapsedTime := e.elapsedTime + dt } dt h4]
            exact ⟨ih.1, fun hf => ih.2 hf⟩
  | reset e he ih => exact ⟨le_rfl, fun _ => rfl⟩
  | trigger e he ih =>
      exact ⟨le_rfl, fun hf => by simp [GlitchEffect.triggerGlitchFn] at hf⟩

/-- In every reachable state with a positive configured duration, an
active glitch timer stays strictly below the duration. -/
theorem reached_timer_lt (e : GlitchEffect) (h : Reached e) :
    0 < e.config.duration → e.isGlitching = true → e.glitchTimer < e.config.duration := by
  induction h with
  | init cfg rng =>
      intro _ hg
      simp [mkEngine, GlitchEffect.initializeFn] at hg
  | update e dt he hdt ih =>
      intro hd hg
      rw [updateFn_config] at hd
      rw [updateFn_config]
      by_cases hI : e.initialized = false ∨ e.config.enabled = false
      · rw [GlitchEffect.updateFn, if_pos hI] at hg ⊢
        exact ih hd hg
      · rw [GlitchEffect.updateFn, if_neg hI] at hg ⊢
        by_cases hG : e.isGlitching = true
        · rw [if_pos hG] at hg ⊢
          by_cases h3 : e.config.duration ≤ e.glitchTimer + dt
          · rw [updateGlitching_end { e with elapsedTime := e.elapsedTime + dt } dt h3]
              at hg
            simp at hg
          · rw [updateGlitching_cont { e with elapsedTime := e.elapsedTime + dt } dt h3]
            exact lt_of_not_le h3
        · rw [if_neg hG] at hg ⊢
          by_cases h4 : e.idleTimer - dt ≤ 0
          · rw [updateIdle_trigger { e with elapsedTime := e.elapsedTime + dt } dt h4]
            exact hd
          · rw [updateIdle_wait { e with elapsedTime := e.elapsedTime + dt } dt h4] at hg
            exact absurd (hg : e.isGlitching = true) hG
  | reset e he ih =>
      intro _ hg
      simp [GlitchEffect.resetFn] at hg
  | trigger e he ih =>
      intro hd _
      exact hd

/-- The intensity envelope stays between 0 and the configured maximum
while the timer is inside the glitch episode. -/
theorem intensityEnvelope_bounds (gt d m : ℚ) (h0 : 0 ≤ gt) (h1 : gt < d)
    (hm : 0 ≤ m) :
    0 ≤ GlitchEffect.intensityEnvelope gt d m ∧
    GlitchEffect.intensityEnvelope gt d m ≤ m := by
  have hd : 0 < d := h0.trans_lt h1
  have hp0 : 0 ≤ gt / d := div_nonneg h0 hd.le
  have hp1 : gt / d < 1 := (div_lt_one hd).mpr h1
  simp only [GlitchEffect.intensityEnvelope]
  split_ifs with hc
  · have hr : gt / d / (1/2) * m = 2 * (gt / d) * m := by ring
    rw [hr]
    constructor
    · positivity
    · nlinarith [hp0, hc, hm]
  · have hr : m * (1 - (gt / d - 1/5) / (4/5)) = m * (1 - (gt / d - 1/5) * (5/4)) := by
      ring
    rw [hr]
    have h5 : 1/5 ≤ gt / d := not_lt.mp hc
    constructor
    · nlinarith [hp1, h5, hm]
    · nlinarith [h5, hm]

/-- In every reachable state with a nonnegative configured intensity, the
running intensity stays in the closed interval from 0 to the configured
intensity and is 0 whenever the engine is idle. -/
theorem reached_intensity (e : GlitchEffect) (h : Reached e) :
    0 ≤ e.config.intensity →
    0 ≤ e.currentIntensity ∧ e.currentIntensity ≤ e.config.intensity ∧
      (e.isGlitching = false → e.currentIntensity = 0) := by
  induction h with
  | init cfg rng =>
      intro hm
      exact ⟨le_rfl, hm, fun _ => rfl⟩
  | update e dt he hdt ih =>
      intro hm
      rw [updateFn_config] at hm
      have IH := ih hm
      rw [updateFn_config]
      by_cases hI : e.initialized = false ∨ e.config.enabled = false
      · rw [GlitchEffect.updateFn, if_pos hI]
        exact IH
      · rw [GlitchEffect.updateFn, if_neg hI]
        by_cases hG : e.isGlitching = true
        · rw [if_pos hG]
          by_cases h3 : e.config.duration ≤ e.glitchTimer + dt
          · rw [updateGlitching_end { e with elapsedTime := e.elapsedTime + dt } dt h3]
            exact ⟨le_rfl, hm, fun _ => rfl⟩
          · rw [updateGlitching_cont { e with elapsedTime := e.elapsedTime + dt } dt h3]
            have ht := reached_timer e he
            have hgt0 : 0 ≤ e.glitchTimer + dt := add_nonneg ht.1 hdt
            have hlt : e.glitchTimer + dt < e.config.duration := lt_of_not_le h3
            obtain ⟨q1, q2⟩ := intensityEnvelope_bounds (e.glitchTimer + dt)
              e.config.duration e.config.intensity hgt0 hlt hm
            refine ⟨q1, q2, fun hf => ?_⟩
            exact absurd (hG.symm.trans (hf : e.isGlitching = false)) (by simp)
        · rw [if_neg hG]
          by_cases h4 : e.idleTimer - dt ≤ 0
          · rw [updateIdle_trigger { e with elapsedTime := e.elapsedTime + dt } dt h4]
            exact ⟨le_rfl, hm, fun _ => rfl⟩
          · rw [updateIdle_wait { e with elapsedTime := e.elapsedTime + dt } dt h4]
            have hGf : e.isGlitching = false := by
              cases hval : e.isGlitching with
              | false => rfl
              | true => exact absurd hval hG
            have h0 : e.currentIntensity = 0 := IH.2.2 hGf
            exact ⟨IH.1, IH.2.1, fun _ => h0⟩
  | reset e he ih =>
      intro hm
      exact ⟨le_rfl, hm, fun _ => rfl⟩
  | trigger e he ih =>
      intro hm
      exact ⟨le_rfl, hm, fun _ => rfl⟩

/-- C1: in every state reachable by update calls with nonnegative dt,
resets and manual triggers on an initialized engine (with a nonnegative
configured intensity), currentIntensity lies in the closed interval from 0
to config.intensity, and is exactly 0 whenever isActive() is false,
including immediately after initialize, reset and triggerGlitch. -/
theorem C1_intensity_bounds (e : GlitchEffect) (h : Reached e)
    (hm : 0 ≤ e.config.intensity) :
    (0 ≤ e.currentIntensity ∧ e.currentIntensity ≤ e.config.intensity) ∧
    (e.isActive = false → e.currentIntensity = 0) := by
  obtain ⟨a, b, c⟩ := reached_intensity e h hm
  exact ⟨⟨a, b⟩, c⟩

/-- C1 witness: the bounds evaluated on the default engine immediately
after initialize. -/
theorem C1_intensity_bounds_witness :
    Reached eC8 ∧ (0 : ℚ) ≤ eC8.config.intensity ∧
    ((0 ≤ eC8.currentIntensity ∧ eC8.currentIntensity ≤ eC8.config.intensity) ∧
     (eC8.isActive = false → eC8.currentIntensity = 0)) :=
  ⟨Reached.init _ _,
   by norm_num [eC8, mkEngine, GlitchEffect.initializeFn, seedOfDraw, truncToNat, rngZero],
   C1_intensity_bounds eC8 (Reached.init _ _)
     (by norm_num [eC8, mkEngine, GlitchEffect.initializeFn, seedOfDraw, truncToNat,
       rngZero])⟩

/-- C8 as amended: the biconditional fails (glitchTimer is 0 while idle,
which satisfies the right side whenever the duration is positive); what
holds in every reachable state with a positive configured duration is the
forward implication, together with a zero timer whenever idle. -/
theorem C8_invariant_amended (e : GlitchEffect) (h : Reached e)
    (hd : 0 < e.config.duration) :
    (e.isGlitching = true → 0 ≤ e.glitchTimer ∧ e.glitchTimer < e.config.duration) ∧
    (e.isGlitching = false → e.glitchTimer = 0) := by
  obtain ⟨t1, t2⟩ := reached_timer e h
  exact ⟨fun hg => ⟨t1, reached_timer_lt e h hd hg⟩, t2⟩

/-- C8 witness: the amended invariant evaluated on the default engine
immediately after initialize. -/
theorem C8_invariant_witness :
    Reached eC8 ∧ (0 : ℚ) < eC8.config.duration ∧
    ((eC8.isGlitching = true → 0 ≤ eC8.glitchTimer ∧ eC8.glitchTimer < eC8.config.duration) ∧
     (eC8.isGlitching = false → eC8.glitchTimer = 0)) :=
  ⟨Reached.init _ _,
   by norm_num [eC8, mkEngine, GlitchEffect.initializeFn, seedOfDraw, truncToNat, rngZero],
   C8_invariant_amended eC8 (Reached.init _ _)
     (by norm_num [eC8, mkEngine, GlitchEffect.initializeFn, seedOfDraw, truncToNat,
       rngZero])⟩

/-- C9: the activation-cycle scenario.  Under idleTime 2, duration 0.5 and
intensity 1, for every draw stream: update(2.0) on the initialized engine
fires the idle-to-active transition (isActive true, glitchTimer 0, the
noise seed rerolled from the next draw), and the following update(0.5)
fires the active-to-idle transition (isActive false, idleTimer rearmed to
2, currentIntensity 0). -/
theorem C9_activation_cycle (rng : Nat → ℚ) :
    (eC9a rng).isActive = true ∧ (eC9a rng).glitchTimer = 0 ∧
    (eC9a rng).noiseSeed = seedOfDraw (rng 1) ∧
    (eC9b rng).isActive = false ∧ (eC9b rng).idleTimer = 2 ∧
    (eC9b rng).currentIntensity = 0 := by
  norm_num [eC9a, eC9b, cfg9, mkEngine, GlitchEffect.initializeFn, GlitchEffect.updateFn,
    GlitchEffect.updateIdle, GlitchEffect.updateGlitching, GlitchEffect.triggerGlitchFn,
    GlitchEffect.intensityEnvelope, GlitchEffect.isActive]

end Deadcode
